import Mathlib

/-!
Verification development for the urscript-tools test CLI driver
(src/cli/tester-cli.ts). The definitions below are a shallow embedding of
the configuration-merge and derivation pipeline of that file: the default
configuration constant (lines 29-58), the lodash merge of the user
configuration onto a shallow spread copy of the defaults (lines 99, 118),
the bundler-configuration derivation (lines 101-116), the array-concatenating
source-set merge (lines 124-138), the test-pattern resolver (lines 60-76)
together with the Node path.extname algorithm it calls, and the driver
control flow (lines 78-186) with its file reads, JSON parses and top-level
try/catch.
-/

set_option autoImplicit false

/-! ## Data model

The concrete configuration shapes. The full record type of the CLI
configuration is visible in the defaultConfig literal (lines 29-58); the
optional restartThreshold field of the test-server record is read at line
154 but has no default. -/

/-- Ports record of the controller section: a single primary port. -/
structure PortsCfg where
  primary : Int
  deriving DecidableEq, Repr

/-- Auto-launch record of the controller section. The stored flag is a
disabled boolean, inverted later at the script-runner boundary. -/
structure AutoLaunchCfg where
  disabled : Bool
  version : String
  stop : Bool
  deriving DecidableEq, Repr

/-- Controller section of the CLI configuration. -/
structure ControllerCfg where
  host : String
  ports : PortsCfg
  autoLaunch : AutoLaunchCfg
  deriving DecidableEq, Repr

/-- Modelled from the spec: the cli/types.ts file declaring
IURTesterCliConfig is not under src/, so the optional restartThreshold
field is taken from the spec data model (testServer has an optional
restart threshold) and from its read at line 154 of the source; the other
fields are exactly those of the defaultConfig literal. -/
structure TestServerCfg where
  host : String
  port : Int
  defaultExecutionTimeout : Int
  restartThreshold : Option Int
  deriving DecidableEq, Repr

/-- Include and exclude glob lists, as used for mocks and for the scripts
source set. -/
structure GlobsCfg where
  «include» : List String
  exclude : List String
  deriving DecidableEq, Repr

/-- Scripts group of a source set: a single scripts member holding globs. -/
structure ScriptsGroupCfg where
  scripts : GlobsCfg
  deriving DecidableEq, Repr

/-- Sources section: in this program only the global group is ever used. -/
structure SourcesCfg where
  global : ScriptsGroupCfg
  deriving DecidableEq, Repr

/-- The full CLI configuration record (IURTesterCliConfig), shaped as the
defaultConfig literal of lines 29-58. -/
structure CliConfig where
  controller : ControllerCfg
  testServer : TestServerCfg
  mocks : GlobsCfg
  sources : SourcesCfg
  deriving DecidableEq, Repr

/-- Built-in default configuration, the constant of lines 29-58 of
tester-cli.ts. The restartThreshold field does not appear in the literal,
so it is absent (none). -/
def defaultConfig : CliConfig :=
  { controller :=
      { host := "localhost"
        ports := { primary := 30001 }
        autoLaunch := { disabled := false, version := "5.3.1", stop := false } }
    testServer :=
      { host := "autodiscover"
        port := 24493
        defaultExecutionTimeout := 10000
        restartThreshold := none }
    mocks :=
      { «include» := ["__mocks__/**/*.mock.script"]
        exclude := [] }
    sources :=
      { global := { scripts := { «include» := [], exclude := [] } } } }

/-! ## User configuration

The user JSON config is a partial CliConfig: any field may be absent.
Every present field is an object, array, or scalar of the schema type. -/

/-- Partial ports record of a user configuration. -/
structure UserPorts where
  primary : Option Int
  deriving DecidableEq, Repr

/-- Partial auto-launch record of a user configuration. -/
structure UserAutoLaunch where
  disabled : Option Bool
  version : Option String
  stop : Option Bool
  deriving DecidableEq, Repr

/-- Partial controller section of a user configuration. -/
structure UserController where
  host : Option String
  ports : Option UserPorts
  autoLaunch : Option UserAutoLaunch
  deriving DecidableEq, Repr

/-- Partial test-server section of a user configuration. -/
structure UserTestServer where
  host : Option String
  port : Option Int
  defaultExecutionTimeout : Option Int
  restartThreshold : Option Int
  deriving DecidableEq, Repr

/-- Partial glob lists of a user configuration. -/
structure UserGlobs where
  «include» : Option (List String)
  exclude : Option (List String)
  deriving DecidableEq, Repr

/-- Partial scripts group of a user configuration. -/
structure UserScriptsGroup where
  scripts : Option UserGlobs
  deriving DecidableEq, Repr

/-- Partial sources section of a user configuration. -/
structure UserSources where
  global : Option UserScriptsGroup
  deriving DecidableEq, Repr

/-- Partial user configuration: the shape accepted by JSON.parse at line 98
and merged onto the defaults at line 118. -/
structure UserConfig where
  controller : Option UserController
  testServer : Option UserTestServer
  mocks : Option UserGlobs
  sources : Option UserSources
  deriving DecidableEq, Repr

/-- User configuration with every field absent (the empty JSON object). -/
def emptyUserConfig : UserConfig :=
  { controller := none, testServer := none, mocks := none, sources := none }

/-! ## Lodash merge (line 118)

merge(config, userConfig) deep-merges: plain objects recurse, a present
scalar in the source overwrites, an absent (undefined) source field keeps
the destination value, and arrays are merged index-wise: the element of the
source at index i overwrites the element of the destination at index i,
and destination elements past the length of the source are kept. -/

/-- Lodash index-wise array merge: source elements overwrite destination
elements position by position; the destination keeps its extra tail. For
string elements the per-index merge is plain overwrite. -/
def lodashMergeList (dest src : List String) : List String :=
  src ++ dest.drop src.length

/-- Merge of a user ports record onto a ports record, per lodash merge. -/
def mergePorts (d : PortsCfg) (u : UserPorts) : PortsCfg :=
  { primary := u.primary.getD d.primary }

/-- Merge of a user auto-launch record onto an auto-launch record. -/
def mergeAutoLaunch (d : AutoLaunchCfg) (u : UserAutoLaunch) : AutoLaunchCfg :=
  { disabled := u.disabled.getD d.disabled
    version := u.version.getD d.version
    stop := u.stop.getD d.stop }

/-- Merge of a user controller section onto a controller section. -/
def mergeController (d : ControllerCfg) (u : UserController) : ControllerCfg :=
  { host := u.host.getD d.host
    ports := match u.ports with
      | none => d.ports
      | some p => mergePorts d.ports p
    autoLaunch := match u.autoLaunch with
      | none => d.autoLaunch
      | some a => mergeAutoLaunch d.autoLaunch a }

/-- Merge of a user test-server section onto a test-server section. -/
def mergeTestServer (d : TestServerCfg) (u : UserTestServer) : TestServerCfg :=
  { host := u.host.getD d.host
    port := u.port.getD d.port
    defaultExecutionTimeout := u.defaultExecutionTimeout.getD d.defaultExecutionTimeout
    restartThreshold := match u.restartThreshold with
      | none => d.restartThreshold
      | some v => some v }

/-- Merge of user glob lists onto glob lists: lodash merges arrays
index-wise (not by concatenation, and not by plain overwrite). -/
def mergeGlobs (d : GlobsCfg) (u : UserGlobs) : GlobsCfg :=
  { «include» := match u.«include» with
      | none => d.«include»
      | some xs => lodashMergeList d.«include» xs
    exclude := match u.exclude with
      | none => d.exclude
      | some xs => lodashMergeList d.exclude xs }

/-- Merge of a user scripts group onto a scripts group. -/
def mergeScriptsGroup (d : ScriptsGroupCfg) (u : UserScriptsGroup) : ScriptsGroupCfg :=
  { scripts := match u.scripts with
      | none => d.scripts
      | some g => mergeGlobs d.scripts g }

/-- Merge of a user sources section onto a sources section. -/
def mergeSources (d : SourcesCfg) (u : UserSources) : SourcesCfg :=
  { global := match u.global with
      | none => d.global
      | some g => mergeScriptsGroup d.global g }

/-- Lodash merge(config, userConfig) of line 118 on the typed shape:
every absent user field keeps the destination value, present objects
recurse, present scalars overwrite, present arrays merge index-wise. -/
def mergeConfig (d : CliConfig) (u : UserConfig) : CliConfig :=
  { controller := match u.controller with
      | none => d.controller
      | some c => mergeController d.controller c
    testServer := match u.testServer with
      | none => d.testServer
      | some t => mergeTestServer d.testServer t
    mocks := match u.mocks with
      | none => d.mocks
      | some m => mergeGlobs d.mocks m
    sources := match u.sources with
      | none => d.sources
      | some s => mergeSources d.sources s }

/-! ## Aliasing of nested objects (line 99)

The statement config = { ...defaultConfig } at line 99 is a shallow spread:
only the four top-level slots are copied, so config and defaultConfig point
to the same nested controller, testServer, mocks and sources objects. The
lodash merge at line 118 recurses into those existing objects and mutates
them in place (every top-level field of the typed user configuration is an
object, so merge never replaces a top-level slot). We model the four shared
nested objects as an explicit state record mutated by the merge; both
defaultConfig and config read their nested data through it afterwards. -/

/-- The four nested objects shared between defaultConfig and config after
the shallow spread of line 99. -/
structure NestedObjects where
  controller : ControllerCfg
  testServer : TestServerCfg
  mocks : GlobsCfg
  sources : SourcesCfg
  deriving DecidableEq, Repr

/-- Heap state before the merge: the objects hold the default values. -/
def initialObjects : NestedObjects :=
  { controller := defaultConfig.controller
    testServer := defaultConfig.testServer
    mocks := defaultConfig.mocks
    sources := defaultConfig.sources }

/-- View of the shared objects through the config binding (its four slots
point at the shared objects). -/
def viewConfig (h : NestedObjects) : CliConfig :=
  { controller := h.controller, testServer := h.testServer
    mocks := h.mocks, sources := h.sources }

/-- View of the shared objects through the defaultConfig constant: its
top-level slots were never reassigned, so it reads the same objects as
config does. -/
def viewDefaultConfig (h : NestedObjects) : CliConfig :=
  { controller := h.controller, testServer := h.testServer
    mocks := h.mocks, sources := h.sources }

/-- In-place effect of lodash merge(config, userConfig) at line 118 on the
shared nested objects: each object present in the user configuration is
recursed into and updated field by field; absent sections are untouched. -/
def mergeMutate (h : NestedObjects) (u : UserConfig) : NestedObjects :=
  let m := mergeConfig (viewConfig h) u
  { controller := m.controller, testServer := m.testServer
    mocks := m.mocks, sources := m.sources }

/-- Value read through the defaultConfig constant after the merge of line
118 has run: because of the shared nested objects it reflects the merged
records, not the original defaults. -/
def defaultConfigAfterMerge (u : UserConfig) : CliConfig :=
  viewDefaultConfig (mergeMutate initialObjects u)

/-! ## Bundler configuration (lines 101-116)

The bundler configuration parsed from the --bundle file (or synthesized
when the flag is absent). In the parsed JSON any part may be missing. -/

/-- Partial glob lists of a bundle-file source group. -/
structure BundleScripts where
  «include» : Option (List String)
  exclude : Option (List String)
  deriving DecidableEq, Repr

/-- Partial global source group of a bundle file. -/
structure BundleGlobal where
  scripts : Option BundleScripts
  deriving DecidableEq, Repr

/-- Sources mapping of a bundle file; only the global group is read by
this program. The empty mapping has no global group. -/
structure BundleSources where
  global : Option BundleGlobal
  deriving DecidableEq, Repr

/-- Options record of a bundler configuration (synthesized at lines
105-111 when no bundle file is given). -/
structure BundleOptions where
  bundleKey : String
  bundleOutputFile : String
  outputDir : String
  scriptSuffix : String
  writeToDisk : Bool
  deriving DecidableEq, Repr

/-- Bundler configuration parsed from the --bundle file (line 102); both
fields may be absent in the JSON. -/
structure BundleConfig where
  sources : Option BundleSources
  options : Option BundleOptions
  deriving DecidableEq, Repr

/-- Options synthesized at lines 105-111 when no bundle file is given. -/
def defaultBundleOptions : BundleOptions :=
  { bundleKey := "test-harness"
    bundleOutputFile := "default"
    outputDir := ".urscript-test"
    scriptSuffix := "script"
    writeToDisk := true }

/-- Value of the bundlerConfig.sources slot after lines 101-116. In the
synthesized branch (line 104) the slot holds a reference to the very
sources object of config (and hence of defaultConfig): an alias, not a
copy, which we record with a dedicated constructor. With an explicit
bundle file the slot holds the parsed sources object of that file. -/
inductive BundlerSourcesVal where
  /-- Slot points at the shared config.sources object (no bundle file). -/
  | aliasCli : BundlerSourcesVal
  /-- Slot holds the sources object of the parsed bundle file (or the
  empty mapping written at line 115). -/
  | fromBundle (bs : BundleSources) : BundlerSourcesVal
  deriving DecidableEq, Repr

/-- Derivation of bundlerConfig.sources, lines 101-116: an explicit bundle
file contributes its own sources object, the synthesized configuration
aliases config.sources, and the check at lines 114-116 replaces an absent
sources field by the empty mapping so the slot is never undefined. -/
def deriveBundlerSources (bundle : Option BundleConfig) : BundlerSourcesVal :=
  let raw : Option BundlerSourcesVal :=
    match bundle with
    | some bc => bc.sources.map BundlerSourcesVal.fromBundle
    | none => some BundlerSourcesVal.aliasCli
  raw.getD (BundlerSourcesVal.fromBundle { global := none })

/-! ## Source-set merge with array concatenation (lines 124-138)

mergeWith(globalSources, bundlerConfig.sources.global, config.sources.global,
customizer) first deep-copies the bundler global group into the fresh empty
object, then merges the config global group onto it; the customizer
concatenates whenever the value already present is an array, and defers to
the default deep merge otherwise (in particular when the present value is
undefined, where the incoming value is simply copied). -/

/-- Bundle-shaped view of a fully populated scripts group, used when the
bundler global group is read through the alias to config.sources.global:
every field is present. -/
def toBundleGlobal (g : ScriptsGroupCfg) : BundleGlobal :=
  { scripts := some { «include» := some g.scripts.«include»
                      exclude := some g.scripts.exclude } }

/-- Lodash mergeWith of lines 127-136 on the typed shapes: bg is the
bundler global group (possibly absent or partial), cli the config global
group (always fully populated after the merge of line 118). An absent
bundler part lets the config value be copied in unchanged; a present
bundler array is concatenated with the config array, bundler part first. -/
def mergeWithConcat (bg : Option BundleGlobal) (cli : ScriptsGroupCfg) : ScriptsGroupCfg :=
  match bg with
  | none => cli
  | some g =>
    match g.scripts with
    | none => { scripts := cli.scripts }
    | some s =>
      { scripts :=
          { «include» := match s.«include» with
              | none => cli.scripts.«include»
              | some xs => xs ++ cli.scripts.«include»
            exclude := match s.exclude with
              | none => cli.scripts.exclude
              | some xs => xs ++ cli.scripts.exclude } }

/-! ## The pipeline inside the try block (lines 97-148) -/

/-- Script-runner configuration assembled at lines 140-148. -/
structure ControllerRunnerCfg where
  autoLaunch : Bool
  controllerVersion : String
  autoStop : Bool
  deriving DecidableEq, Repr

/-- Script-runner configuration: host, port and controller projection. -/
structure ScriptRunnerCfg where
  host : String
  port : Int
  controller : ControllerRunnerCfg
  deriving DecidableEq, Repr

/-- Projection of the merged configuration into the script-runner
configuration, lines 140-148: the stored disabled flag is negated into
autoLaunch at this boundary. -/
def scriptRunnerConfigOf (c : CliConfig) : ScriptRunnerCfg :=
  { host := c.controller.host
    port := c.controller.ports.primary
    controller :=
      { autoLaunch := !c.controller.autoLaunch.disabled
        controllerVersion := c.controller.autoLaunch.version
        autoStop := c.controller.autoLaunch.stop } }

/-- Test-runner configuration assembled at lines 150-155; the runner
instance is represented by the configuration it was constructed from. -/
structure TestRunnerCfg where
  runner : ScriptRunnerCfg
  port : Int
  executionTimeout : Int
  restartThreshold : Option Int
  deriving DecidableEq, Repr

/-- Result of the configuration pipeline of lines 97-155, before the
execute call: the merged configuration as read through config, the value
read through the defaultConfig constant (shared nested objects), the
derived bundler sources slot, the final global source set written at line
138, and the assembled runner configurations. -/
structure PipelineOut where
  mergedConfig : CliConfig
  defaultConfigAfter : CliConfig
  bundlerSources : BundlerSourcesVal
  finalGlobal : ScriptsGroupCfg
  bundlerOptions : Option BundleOptions
  scriptRunner : ScriptRunnerCfg
  testRunner : TestRunnerCfg
  deriving DecidableEq, Repr

/-- Configuration pipeline of lines 97-155 in source order: bundler
derivation (101-116) runs before the merge (118); the mergeWith of lines
127-136 reads bundlerConfig.sources.global afterwards, so through the
alias of the synthesized branch it sees the merged global source set. -/
def runPipeline (user : UserConfig) (bundle : Option BundleConfig) : PipelineOut :=
  let sv := deriveBundlerSources bundle
  let shared := mergeMutate initialObjects user
  let merged := viewConfig shared
  let bg : Option BundleGlobal :=
    match sv with
    | BundlerSourcesVal.aliasCli => some (toBundleGlobal merged.sources.global)
    | BundlerSourcesVal.fromBundle bs => bs.global
  let finalG := mergeWithConcat bg merged.sources.global
  { mergedConfig := merged
    defaultConfigAfter := viewDefaultConfig shared
    bundlerSources := sv
    finalGlobal := finalG
    bundlerOptions :=
      match bundle with
      | some bc => bc.options
      | none => some defaultBundleOptions
    scriptRunner := scriptRunnerConfigOf merged
    testRunner :=
      { runner := scriptRunnerConfigOf merged
        port := merged.testServer.port
        executionTimeout := merged.testServer.defaultExecutionTimeout
        restartThreshold := merged.testServer.restartThreshold } }

/-! ## Node path.extname (imported at line 6, used at line 62)

Faithful port of the posix extname algorithm of the Node path module: a
single backwards scan over the string tracking the last dot, the start of
the final path component, the end of the trimmed component, and whether
only dots were seen before the last dot. -/

/-- Scanner state of the Node extname loop. The sentinels startDot = -1
and end = -1 of the JavaScript code are represented by none. -/
structure ExtScanState where
  startDot : Option Nat
  startPart : Nat
  endIdx : Option Nat
  matchedSlash : Bool
  preDotState : Int
  deriving DecidableEq, Repr

/-- Backwards scan of the extname algorithm: the argument i is one past
the index to process next, so the loop runs i-1, i-2, ..., 0; a slash
after a non-slash character sets startPart and stops the scan. -/
def extScan (s : List Char) : Nat → ExtScanState → ExtScanState
  | 0, st => st
  | i + 1, st =>
    let c := s.getD i ' '
    if c = '/' then
      if !st.matchedSlash then { st with startPart := i + 1 }
      else extScan s i st
    else
      let st1 :=
        if st.endIdx = none then { st with matchedSlash := false, endIdx := some (i + 1) }
        else st
      let st2 :=
        if c = '.' then
          match st1.startDot with
          | none => { st1 with startDot := some i }
          | some _ => if st1.preDotState ≠ 1 then { st1 with preDotState := 1 } else st1
        else if st1.startDot ≠ none then { st1 with preDotState := -1 }
        else st1
      extScan s i st2

/-- Node path.extname: the extension of the last path component, empty
when the component has no dot, consists only of leading dots, or is
exactly a dot pair. -/
def extname (s : String) : String :=
  let cs := s.data
  let st := extScan cs cs.length
    { startDot := none, startPart := 0, endIdx := none
      matchedSlash := true, preDotState := 0 }
  match st.startDot, st.endIdx with
  | some sd, some e =>
    if st.preDotState = 0 ∨ (st.preDotState = 1 ∧ sd + 1 = e ∧ sd = st.startPart + 1) then ""
    else String.mk ((cs.drop sd).take (e - sd))
  | _, _ => ""

/-! ## Test pattern resolver (lines 60-76) -/

/-- Index of the last slash of the string, as a list scan: the JavaScript
lastIndexOf returns the largest index holding the character. -/
def lastSlashIdx : List Char → Option Nat
  | [] => none
  | c :: cs =>
    match lastSlashIdx cs with
    | some i => some (i + 1)
    | none => if c = '/' then some 0 else none

/-- JavaScript pattern.lastIndexOf of the slash character: the largest
index of a slash, or -1 when the string has none. -/
def lastIndexOfSlash (s : String) : Int :=
  match lastSlashIdx s.data with
  | some i => (i : Int)
  | none => -1

/-- getTestPattern of lines 60-76. The option argument models path[0] of
the minimist positional arguments (undefined when no path was given); the
empty string is falsy in the JavaScript truthiness test of line 61 and
falls through to the default pattern. -/
def getTestPattern (pattern : Option String) : String :=
  match pattern with
  | some p =>
    if p = "" then "**/*.test.script"
    else
      let ext := extname p
      if ext ≠ "" then p ++ "*"
      else
        let suffixPattern := "**/*.test.script"
        if lastIndexOfSlash p = (p.length : Int) - 1 then p ++ suffixPattern
        else p ++ "/" ++ suffixPattern
  | none => "**/*.test.script"

/-! ## CLI driver control flow (lines 78-186)

The driver reads the configuration files synchronously at lines 89-94,
before the try block that starts at line 97; JSON parsing, the pipeline
and the awaited execute call all happen inside the try block, whose catch
prints the error and calls process.exit(1). File reads and parses are
modelled as oracles passed to the driver. -/

/-- Error kinds that can reach the catch block of line 180. -/
inductive ErrKind where
  /-- JSON.parse threw (config file at line 98 or bundle file at line 102). -/
  | parse (msg : String) : ErrKind
  /-- The awaited executor.execute() call of line 179 rejected. -/
  | exec (msg : String) : ErrKind
  deriving DecidableEq, Repr

/-- Terminal result of one run of main. -/
inductive DriverResult where
  /-- printHelp ran and process.exit(0) was called (lines 84-87). -/
  | help : DriverResult
  /-- readFileSync threw at line 89 or 94, outside the try block: the
  error escapes main as a rejected promise the driver never handles. -/
  | uncaughtLoadError (file msg : String) : DriverResult
  /-- The catch block of lines 180-183 ran: the error was printed and
  process.exit(1) was called. -/
  | caughtExit1 (e : ErrKind) : DriverResult
  /-- execute resolved; main returns and the process exits normally. -/
  | success : DriverResult
  deriving DecidableEq, Repr

/-- Process termination as determined by the driver code itself. -/
inductive ExitBehavior where
  /-- The driver ends the process with this exit code. -/
  | exits (code : Nat) : ExitBehavior
  /-- The driver sets no exit code: the error leaves main as an unhandled
  promise rejection and termination is up to the runtime, not this code. -/
  | unhandledRejection : ExitBehavior
  deriving DecidableEq, Repr

/-- Exit behavior of each driver result: help exits 0, a caught error
exits 1, success ends the process normally with code 0, and a load error
is never caught by the driver. -/
def driverExit : DriverResult → ExitBehavior
  | DriverResult.help => ExitBehavior.exits 0
  | DriverResult.uncaughtLoadError _ _ => ExitBehavior.unhandledRejection
  | DriverResult.caughtExit1 _ => ExitBehavior.exits 1
  | DriverResult.success => ExitBehavior.exits 0

/-- Usage text printed by printHelp, lines 19-26. -/
def helpLines : List String :=
  [ "Usage: npx urscript-tester [--config <config.json>] [--bundle <config.json>] [path]"
  , "Tool used to generate unique script bundles"
  , "Options:"
  , "--config Test configuration file"
  , "--bundle Optional bundle configuration file"
  , "Expression (glob format) used to determine tests to execute" ]

/-- Message text of an error as printed by console.log(err) at line 181. -/
def errMessage : ErrKind → String
  | ErrKind.parse m => m
  | ErrKind.exec m => m

/-- Console output produced by the driver for each result: the help text,
or the caught error printed in full by the catch block; the driver itself
prints nothing on success or on an uncaught load error. -/
def printedOutput : DriverResult → List String
  | DriverResult.help => helpLines
  | DriverResult.uncaughtLoadError _ _ => []
  | DriverResult.caughtExit1 e => [errMessage e]
  | DriverResult.success => []

/-- Test execution configuration assembled at lines 157-173, with each
collaborator instance represented by the configuration it was constructed
from. -/
structure TestExecCfg where
  runner : TestRunnerCfg
  serverHost : String
  serverPort : Int
  pattern : String
  mocks : GlobsCfg
  bundlerSources : BundlerSourcesVal
  bundlerFinalGlobal : ScriptsGroupCfg
  bundlerOptions : Option BundleOptions
  deriving DecidableEq, Repr

/-- Assembly of the execution configuration (lines 140-173) from the
parsed user configuration, the optional parsed bundle configuration, and
the first positional argument. -/
def assembleExecConfig (user : UserConfig) (bundle : Option BundleConfig)
    (pathArg : Option String) : TestExecCfg :=
  let po := runPipeline user bundle
  { runner := po.testRunner
    serverHost := po.mergedConfig.testServer.host
    serverPort := po.mergedConfig.testServer.port
    pattern := getTestPattern pathArg
    mocks := po.mergedConfig.mocks
    bundlerSources := po.bundlerSources
    bundlerFinalGlobal := po.finalGlobal
    bundlerOptions := po.bundlerOptions }

/-- Body of the try block, lines 97-179: parse the config text, parse the
bundle text when present, run the pipeline, call execute; any parse error
or execute rejection reaches the catch block of line 180. -/
def tryBlock (contents : String) (bundleContents : Option String)
    (pathArg : Option String)
    (parseUserConfig : String → Except String UserConfig)
    (parseBundleConfig : String → Except String BundleConfig)
    (execute : TestExecCfg → Except String Unit) : DriverResult :=
  match parseUserConfig contents with
  | Except.error e => DriverResult.caughtExit1 (ErrKind.parse e)
  | Except.ok user =>
    match bundleContents with
    | some bc =>
      match parseBundleConfig bc with
      | Except.error e => DriverResult.caughtExit1 (ErrKind.parse e)
      | Except.ok bcfg =>
        match execute (assembleExecConfig user (some bcfg) pathArg) with
        | Except.error e => DriverResult.caughtExit1 (ErrKind.exec e)
        | Except.ok _ => DriverResult.success
    | none =>
      match execute (assembleExecConfig user none pathArg) with
      | Except.error e => DriverResult.caughtExit1 (ErrKind.exec e)
      | Except.ok _ => DriverResult.success

/-- One run of main (lines 78-186). Besides the terminal result, the list
of files the driver attempted to read is returned. The file reads of
lines 89 and 94 happen before the try block: a failing read is therefore
an uncaught error, not a caught one. -/
def runDriver (configFilename bundleFilename : Option String)
    (pathArgs : List String)
    (readFileSync : String → Except String String)
    (parseUserConfig : String → Except String UserConfig)
    (parseBundleConfig : String → Except String BundleConfig)
    (execute : TestExecCfg → Except String Unit) : DriverResult × List String :=
  match configFilename with
  | none => (DriverResult.help, [])
  | some cf =>
    match readFileSync cf with
    | Except.error e => (DriverResult.uncaughtLoadError cf e, [cf])
    | Except.ok contents =>
      match bundleFilename with
      | some bf =>
        match readFileSync bf with
        | Except.error e => (DriverResult.uncaughtLoadError bf e, [cf, bf])
        | Except.ok bcontents =>
          (tryBlock contents (some bcontents) pathArgs.head?
             parseUserConfig parseBundleConfig execute, [cf, bf])
      | none =>
        (tryBlock contents none pathArgs.head?
           parseUserConfig parseBundleConfig execute, [cf])

/-! ## Concrete configurations used by the claim theorems -/

/-- User configuration setting only controller.ports.primary to 40001. -/
def userPrimary40001 : UserConfig :=
  { controller := some
      { host := none
        ports := some { primary := some 40001 }
        autoLaunch := none }
    testServer := none, mocks := none, sources := none }

/-- Second copy of the primary-port override, used for the frame-effect
scenario on the defaultConfig constant. -/
def userOverridingPrimary : UserConfig :=
  { controller := some
      { host := none
        ports := some { primary := some 40001 }
        autoLaunch := none }
    testServer := none, mocks := none, sources := none }

/-- User configuration setting only sources.global.scripts.include to the
one-element list a.script. -/
def userIncludeA : UserConfig :=
  { controller := none, testServer := none, mocks := none
    sources := some
      { global := some
          { scripts := some { «include» := some ["a.script"], exclude := none } } } }

/-- Bundle configuration setting only sources.global.scripts.include to
the one-element list b.script. -/
def bundleIncludeB : BundleConfig :=
  { sources := some
      { global := some
          { scripts := some { «include» := some ["b.script"], exclude := none } } }
    options := none }

/-- User configuration whose mocks.include field is present but is the
empty array. -/
def userMocksEmptyInclude : UserConfig :=
  { controller := none, testServer := none
    mocks := some { «include» := some [], exclude := none }
    sources := none }

/-- Bundle configuration whose JSON omits the sources field entirely. -/
def bundleWithoutSources : BundleConfig :=
  { sources := none, options := none }

/-- User configuration setting only controller.host, used to instantiate
the merge theorem. -/
def userC5Witness : UserConfig :=
  { controller := some
      { host := some "10.0.0.5", ports := none, autoLaunch := none }
    testServer := none, mocks := none, sources := none }

/-! ## Helper lemmas -/

/-- A string different from the empty string has nonempty character data. -/
theorem string_data_ne_nil (p : String) (h : p ≠ "") : p.data ≠ [] := by
  intro hd
  apply h
  cases p with
  | mk data =>
    have hd2 : data = [] := hd
    subst hd2
    rfl


/-- One-step unfolding of lastSlashIdx on a cons cell. -/
theorem lastSlashIdx_cons (c : Char) (cs : List Char) :
    lastSlashIdx (c :: cs) =
      (match lastSlashIdx cs with
       | some i => some (i + 1)
       | none => if c = '/' then some 0 else none) := rfl

/-- lastSlashIdx finds the last index, so it equals length - 1 exactly
when the final character is a slash. -/
theorem lastSlashIdx_last_iff (cs : List Char) (h : cs ≠ []) :
    lastSlashIdx cs = some (cs.length - 1) ↔ cs.getLast? = some '/' := by
  induction cs with
  | nil => exact absurd rfl h
  | cons c cs ih =>
    cases cs with
    | nil =>
      rw [lastSlashIdx_cons]
      by_cases hc : c = '/' <;> simp [lastSlashIdx, hc]
    | cons c2 cs2 =>
      have hne : c2 :: cs2 ≠ [] := by simp
      rw [List.getLast?_cons_cons, lastSlashIdx_cons]
      cases hL : lastSlashIdx (c2 :: cs2) with
      | some i =>
        have ihi := ih hne
        rw [hL] at ihi
        show some (i + 1) = some ((c :: c2 :: cs2).length - 1) ↔ _
        have hlen : (c :: c2 :: cs2).length - 1 = (c2 :: cs2).length := by simp
        rw [hlen]
        constructor
        · intro hsome
          have h1 : i + 1 = (c2 :: cs2).length := Option.some.inj hsome
          have h2 : i = (c2 :: cs2).length - 1 := by omega
          exact ihi.mp (by rw [h2])
        · intro hlast
          have h2 : i = (c2 :: cs2).length - 1 := Option.some.inj (ihi.mpr hlast)
          have h1 : i + 1 = (c2 :: cs2).length := by
            have : 1 ≤ (c2 :: cs2).length := by simp
            omega
          rw [h1]
      | none =>
        show (if c = '/' then some 0 else none) = some ((c :: c2 :: cs2).length - 1) ↔ _
        have hlen : (c :: c2 :: cs2).length - 1 = (c2 :: cs2).length := by simp
        rw [hlen]
        constructor
        · intro hsome
          by_cases hc : c = '/'
          · rw [if_pos hc] at hsome
            have := Option.some.inj hsome
            have hpos : 1 ≤ (c2 :: cs2).length := by simp
            omega
          · rw [if_neg hc] at hsome
            exact absurd hsome (by simp)
        · intro hlast
          have := (ih hne).mpr hlast
          rw [hL] at this
          exact absurd this (by simp)

/-- Characterization of the slash-at-end test at line 67: the JavaScript
comparison of lastIndexOf with length - 1 holds exactly when the last
character of the (nonempty) argument is a slash. -/
theorem lastIndexOfSlash_eq_iff (p : String) (h : p ≠ "") :
    (lastIndexOfSlash p = (p.length : Int) - 1) ↔ p.data.getLast? = some '/' := by
  have hd := string_data_ne_nil p h
  have hlen : 1 ≤ p.data.length := by
    cases hcs : p.data with
    | nil => exact absurd hcs hd
    | cons a l => simp
  have hplen : p.length = p.data.length := rfl
  constructor
  · intro hc
    cases hL : lastSlashIdx p.data with
    | none =>
      simp only [lastIndexOfSlash, hL] at hc
      rw [hplen] at hc
      omega
    | some i =>
      simp only [lastIndexOfSlash, hL] at hc
      rw [hplen] at hc
      have : i = p.data.length - 1 := by omega
      exact (lastSlashIdx_last_iff p.data hd).mp (by rw [hL, this])
  · intro hlast
    have hsome := (lastSlashIdx_last_iff p.data hd).mpr hlast
    simp only [lastIndexOfSlash, hsome, hplen]
    omega

/-! ## Claim theorems -/

/-- C9: when no --config path is given, the driver prints the usage text
and exits with code 0, without attempting to read any file. -/
theorem help_exit_zero_no_reads (bundleFilename : Option String)
    (pathArgs : List String)
    (readFileSync : String → Except String String)
    (parseUserConfig : String → Except String UserConfig)
    (parseBundleConfig : String → Except String BundleConfig)
    (execute : TestExecCfg → Except String Unit) :
    runDriver none bundleFilename pathArgs readFileSync parseUserConfig
        parseBundleConfig execute = (DriverResult.help, [])
    ∧ printedOutput DriverResult.help = helpLines
    ∧ driverExit DriverResult.help = ExitBehavior.exits 0 :=
  ⟨rfl, rfl, rfl⟩

/-- C7: with a user configuration containing only a primary-port override
of 40001, the assembled ScriptRunnerConfiguration has port 40001, host
localhost, autoLaunch true (the negation of the stored disabled flag),
controller version 5.3.1 and autoStop false. -/
theorem scriptRunner_projection_scenario :
    (runPipeline userPrimary40001 none).scriptRunner =
      { host := "localhost"
        port := 40001
        controller :=
          { autoLaunch := true, controllerVersion := "5.3.1", autoStop := false } }
    ∧ (runPipeline userPrimary40001 none).scriptRunner.controller.autoLaunch
        = !(runPipeline userPrimary40001 none).mergedConfig.controller.autoLaunch.disabled :=
  ⟨rfl, rfl⟩

/-- C4: the concatenating source-set merge of two fully array-valued
source sets A then B yields include (and exclude) lists that are exactly
the elements of A followed by the elements of B, with additive length and
no element lost. -/
theorem concatMerge_append_spec (A B : GlobsCfg) :
    (mergeWithConcat
        (some { scripts := some { «include» := some A.«include», exclude := some A.exclude } })
        { scripts := B }).scripts.«include» = A.«include» ++ B.«include»
    ∧ (mergeWithConcat
        (some { scripts := some { «include» := some A.«include», exclude := some A.exclude } })
        { scripts := B }).scripts.«include».length
        = A.«include».length + B.«include».length
    ∧ (mergeWithConcat
        (some { scripts := some { «include» := some A.«include», exclude := some A.exclude } })
        { scripts := B }).scripts.exclude = A.exclude ++ B.exclude
    ∧ (mergeWithConcat
        (some { scripts := some { «include» := some A.«include», exclude := some A.exclude } })
        { scripts := B }).scripts.exclude.length
        = A.exclude.length + B.exclude.length
    ∧ (∀ x, x ∈ A.«include» →
        x ∈ (mergeWithConcat
          (some { scripts := some { «include» := some A.«include», exclude := some A.exclude } })
          { scripts := B }).scripts.«include»)
    ∧ (∀ x, x ∈ B.«include» →
        x ∈ (mergeWithConcat
          (some { scripts := some { «include» := some A.«include», exclude := some A.exclude } })
          { scripts := B }).scripts.«include») := by
  refine ⟨rfl, ?_, rfl, ?_, ?_, ?_⟩
  · show (A.«include» ++ B.«include»).length = _
    exact List.length_append _ _
  · show (A.exclude ++ B.exclude).length = _
    exact List.length_append _ _
  · intro x hx
    show x ∈ A.«include» ++ B.«include»
    exact List.mem_append_left _ hx
  · intro x hx
    show x ∈ A.«include» ++ B.«include»
    exact List.mem_append_right _ hx

/-- C6: after derivation, the bundlerConfig.sources slot is defined for
every input: an explicit bundle file omitting sources yields the empty
mapping, an explicit bundle file with sources keeps them verbatim, and
without a bundle file the slot aliases the config sources object. -/
theorem bundlerSources_always_defined (b : Option BundleConfig) :
    (∀ bc, b = some bc → bc.sources = none →
        deriveBundlerSources b = BundlerSourcesVal.fromBundle { global := none })
    ∧ (∀ bc bs, b = some bc → bc.sources = some bs →
        deriveBundlerSources b = BundlerSourcesVal.fromBundle bs)
    ∧ (b = none → deriveBundlerSources b = BundlerSourcesVal.aliasCli) := by
  refine ⟨?_, ?_, ?_⟩
  · intro bc hb hs
    subst hb
    simp [deriveBundlerSources, hs]
  · intro bc bs hb hs
    subst hb
    simp [deriveBundlerSources, hs]
  · intro hb
    subst hb
    rfl

/-- Witness for C6: a bundle file with no sources field gets the empty
mapping. -/
theorem bundlerSources_always_defined_witness :
    deriveBundlerSources (some bundleWithoutSources)
      = BundlerSourcesVal.fromBundle { global := none } :=
  (bundlerSources_always_defined (some bundleWithoutSources)).1 bundleWithoutSources rfl rfl

/-- C3: without a bundle file the synthesized bundler configuration
aliases config.sources, so the source-set merge concatenates the merged
global source set with itself: every element of the merged include and
exclude lists appears twice in the final bundlerConfig.sources.global. -/
theorem noBundle_alias_doubles_sources (u : UserConfig) :
    (runPipeline u none).bundlerSources = BundlerSourcesVal.aliasCli
    ∧ (runPipeline u none).finalGlobal.scripts.«include»
        = (runPipeline u none).mergedConfig.sources.global.scripts.«include»
          ++ (runPipeline u none).mergedConfig.sources.global.scripts.«include»
    ∧ (runPipeline u none).finalGlobal.scripts.exclude
        = (runPipeline u none).mergedConfig.sources.global.scripts.exclude
          ++ (runPipeline u none).mergedConfig.sources.global.scripts.exclude
    ∧ (∀ x, ((runPipeline u none).finalGlobal.scripts.«include»).count x
        = 2 * (((runPipeline u none).mergedConfig.sources.global.scripts.«include»).count x))
    ∧ (∀ x, x ∈ (runPipeline u none).mergedConfig.sources.global.scripts.«include» →
        x ∈ (runPipeline u none).finalGlobal.scripts.«include») := by
  have hinc : (runPipeline u none).finalGlobal.scripts.«include»
      = (runPipeline u none).mergedConfig.sources.global.scripts.«include»
        ++ (runPipeline u none).mergedConfig.sources.global.scripts.«include» := rfl
  have hexc : (runPipeline u none).finalGlobal.scripts.exclude
      = (runPipeline u none).mergedConfig.sources.global.scripts.exclude
        ++ (runPipeline u none).mergedConfig.sources.global.scripts.exclude := rfl
  refine ⟨rfl, hinc, hexc, ?_, ?_⟩
  · intro x
    rw [hinc, List.count_append]
    omega
  · intro x hx
    rw [hinc]
    exact List.mem_append_left _ hx

/-- C2 counterexample: in the two-file scenario the derived global include
list is b.script then a.script, not a.script then b.script as the claim
states. -/
theorem sourceMerge_order_cex :
    (runPipeline userIncludeA (some bundleIncludeB)).finalGlobal.scripts.«include»
      = ["b.script", "a.script"]
    ∧ (runPipeline userIncludeA (some bundleIncludeB)).finalGlobal.scripts.«include»
      ≠ ["a.script", "b.script"] :=
  ⟨rfl, by decide⟩

/-- C2 amended: in the two-file scenario the derived global include list
equals exactly b.script then a.script: the bundle configuration elements
come first, the CLI configuration elements after them, and no element is
dropped. -/
theorem sourceMerge_bundle_then_cli :
    (runPipeline userIncludeA (some bundleIncludeB)).finalGlobal.scripts.«include»
      = ["b.script", "a.script"]
    ∧ "a.script" ∈ (runPipeline userIncludeA (some bundleIncludeB)).finalGlobal.scripts.«include»
    ∧ "b.script" ∈ (runPipeline userIncludeA (some bundleIncludeB)).finalGlobal.scripts.«include»
    ∧ ((runPipeline userIncludeA (some bundleIncludeB)).finalGlobal.scripts.«include»).length = 2 := by
  refine ⟨rfl, ?_, ?_, rfl⟩ <;> decide

/-- C10: the merge of line 118 operates on a shallow spread copy, so the
nested records of the defaultConfig constant track the merged values; in
particular overriding the primary port leaves the constant changed. -/
theorem defaultConfig_nested_mutation :
    (∀ u, defaultConfigAfterMerge u = mergeConfig defaultConfig u)
    ∧ (runPipeline userOverridingPrimary none).defaultConfigAfter
        = defaultConfigAfterMerge userOverridingPrimary
    ∧ (defaultConfigAfterMerge userOverridingPrimary).controller.ports.primary = 40001
    ∧ (defaultConfigAfterMerge userOverridingPrimary).controller ≠ defaultConfig.controller := by
  refine ⟨fun u => rfl, rfl, rfl, ?_⟩
  decide

/-- C8: for a non-empty argument with no file-extension component the
resolver appends the test-suffix pattern, inserting exactly one path
separator when the argument does not already end with one and none when
it does, so no double separator arises; without an argument the plain
default pattern is returned. -/
theorem testPattern_resolution (p : String) (hne : p ≠ "") (hext : extname p = "") :
    (p.data.getLast? = some '/' → getTestPattern (some p) = p ++ "**/*.test.script")
    ∧ (p.data.getLast? ≠ some '/' → getTestPattern (some p) = p ++ "/" ++ "**/*.test.script")
    ∧ getTestPattern (some "dir/") = "dir/**/*.test.script"
    ∧ getTestPattern (some "dir") = "dir/**/*.test.script"
    ∧ getTestPattern none = "**/*.test.script" := by
  refine ⟨?_, ?_, rfl, rfl, rfl⟩
  · intro hslash
    have hcond := (lastIndexOfSlash_eq_iff p hne).mpr hslash
    simp only [getTestPattern]
    rw [if_neg hne, if_neg (by simp [hext]), if_pos hcond]
  · intro hslash
    have hcond : ¬ (lastIndexOfSlash p = (p.length : Int) - 1) := by
      intro hc
      exact hslash ((lastIndexOfSlash_eq_iff p hne).mp hc)
    simp only [getTestPattern]
    rw [if_neg hne, if_neg (by simp [hext]), if_neg hcond]

/-- Witness for C8 at the concrete argument dir. -/
theorem testPattern_resolution_witness :
    getTestPattern (some "dir") = "dir/**/*.test.script" := by
  have h := (testPattern_resolution "dir" (by decide) rfl).2.1 (by decide)
  exact h

/-- C5 counterexample: for the user configuration whose mocks.include is
present but empty, the lodash merge does not overwrite the default (the
index-wise array merge keeps every default element past the source
length), and the restartThreshold field of the result is undefined. -/
theorem merge_defaults_cex :
    (mergeConfig defaultConfig userMocksEmptyInclude).mocks.«include»
      = ["__mocks__/**/*.mock.script"]
    ∧ (mergeConfig defaultConfig userMocksEmptyInclude).mocks.«include» ≠ []
    ∧ (mergeConfig defaultConfig userMocksEmptyInclude).testServer.restartThreshold = none :=
  ⟨rfl, by decide, rfl⟩

/-- C5 amended: merging a valid partial user configuration onto the
defaults keeps every absent section at its default, overwrites present
scalar fields, merges present array fields index-wise (so default
elements beyond the user array length survive), and leaves only the
undefaulted optional restartThreshold possibly undefined, mirroring the
user configuration there. -/
theorem merge_defaults_amended (u : UserConfig) :
    ((u.controller = none → (mergeConfig defaultConfig u).controller = defaultConfig.controller)
    ∧ (u.testServer = none → (mergeConfig defaultConfig u).testServer = defaultConfig.testServer)
    ∧ (u.mocks = none → (mergeConfig defaultConfig u).mocks = defaultConfig.mocks)
    ∧ (u.sources = none → (mergeConfig defaultConfig u).sources = defaultConfig.sources))
    ∧ ((∀ c hostv, u.controller = some c → c.host = some hostv →
        (mergeConfig defaultConfig u).controller.host = hostv)
    ∧ (∀ c, u.controller = some c → c.host = none →
        (mergeConfig defaultConfig u).controller.host = defaultConfig.controller.host)
    ∧ (∀ c pp v, u.controller = some c → c.ports = some pp → pp.primary = some v →
        (mergeConfig defaultConfig u).controller.ports.primary = v)
    ∧ (∀ t v, u.testServer = some t → t.port = some v →
        (mergeConfig defaultConfig u).testServer.port = v))
    ∧ (∀ g xs, u.mocks = some g → g.«include» = some xs →
        (mergeConfig defaultConfig u).mocks.«include»
          = xs ++ defaultConfig.mocks.«include».drop xs.length)
    ∧ (mergeConfig defaultConfig u).testServer.restartThreshold
        = u.testServer.bind UserTestServer.restartThreshold := by
  refine ⟨⟨?_, ?_, ?_, ?_⟩, ⟨?_, ?_, ?_, ?_⟩, ?_, ?_⟩
  · intro h; simp [mergeConfig, h]
  · intro h; simp [mergeConfig, h]
  · intro h; simp [mergeConfig, h]
  · intro h; simp [mergeConfig, h]
  · intro c hostv hc hh
    simp [mergeConfig, hc, mergeController, hh]
  · intro c hc hh
    simp [mergeConfig, hc, mergeController, hh]
  · intro c pp v hc hp hv
    simp [mergeConfig, hc, mergeController, hp, mergePorts, hv]
  · intro t v ht hv
    simp [mergeConfig, ht, mergeTestServer, hv]
  · intro g xs hg hx
    simp [mergeConfig, hg, mergeGlobs, hx, lodashMergeList]
  · cases ht : u.testServer with
    | none => simp [mergeConfig, ht, defaultConfig]
    | some t =>
      cases hr : t.restartThreshold with
      | none => simp [mergeConfig, ht, mergeTestServer, hr, defaultConfig]
      | some v => simp [mergeConfig, ht, mergeTestServer, hr]

/-- Witness for C5 at a user configuration that overrides only the
controller host. -/
theorem merge_defaults_amended_witness :
    (mergeConfig defaultConfig userC5Witness).controller.host = "10.0.0.5"
    ∧ (mergeConfig defaultConfig userC5Witness).testServer = defaultConfig.testServer
    ∧ (mergeConfig defaultConfig userC5Witness).testServer.restartThreshold = none := by
  have h := merge_defaults_amended userC5Witness
  refine ⟨h.2.1.1 _ "10.0.0.5" rfl rfl, h.1.2.1 rfl, ?_⟩
  have := h.2.2.2
  simpa [userC5Witness] using this

/-- C1 counterexample: a run whose config file read fails produces an
uncaught load error; the top-level catch never runs and the driver sets
no exit code, so a ConfigurationLoadError is not caught and does not exit
through the code-1 path. -/
theorem driver_load_error_uncaught_cex :
    runDriver (some "cfg.json") none []
        (fun _ => Except.error "ENOENT: no such file or directory")
        (fun _ => Except.ok emptyUserConfig)
        (fun _ => Except.error "unused")
        (fun _ => Except.ok ())
      = (DriverResult.uncaughtLoadError "cfg.json" "ENOENT: no such file or directory",
         ["cfg.json"])
    ∧ driverExit (runDriver (some "cfg.json") none []
        (fun _ => Except.error "ENOENT: no such file or directory")
        (fun _ => Except.ok emptyUserConfig)
        (fun _ => Except.error "unused")
        (fun _ => Except.ok ())).1
      = ExitBehavior.unhandledRejection
    ∧ driverExit (runDriver (some "cfg.json") none []
        (fun _ => Except.error "ENOENT: no such file or directory")
        (fun _ => Except.ok emptyUserConfig)
        (fun _ => Except.error "unused")
        (fun _ => Except.ok ())).1
      ≠ ExitBehavior.exits 1 :=
  ⟨rfl, rfl, by decide⟩

/-- C1 amended: JSON parse errors (config or bundle) and execution
rejections are caught by the top-level try/catch of the driver, printed
in full and exit the process with code 1; file-read errors occur before
the try block and are not caught by the driver, which then sets no exit
code. -/
theorem driver_error_propagation_amended
    (cf bf : String) (bundleFilename : Option String) (pathArgs : List String)
    (fs : String → Except String String)
    (pc : String → Except String UserConfig)
    (pb : String → Except String BundleConfig)
    (ex : TestExecCfg → Except String Unit) :
    (∀ e, fs cf = Except.error e →
        runDriver (some cf) bundleFilename pathArgs fs pc pb ex
          = (DriverResult.uncaughtLoadError cf e, [cf])
        ∧ driverExit (runDriver (some cf) bundleFilename pathArgs fs pc pb ex).1
            = ExitBehavior.unhandledRejection)
    ∧ (∀ contents e, fs cf = Except.ok contents → fs bf = Except.error e →
        runDriver (some cf) (some bf) pathArgs fs pc pb ex
          = (DriverResult.uncaughtLoadError bf e, [cf, bf]))
    ∧ (∀ contents e, fs cf = Except.ok contents → pc contents = Except.error e →
        (runDriver (some cf) none pathArgs fs pc pb ex).1
          = DriverResult.caughtExit1 (ErrKind.parse e)
        ∧ printedOutput (runDriver (some cf) none pathArgs fs pc pb ex).1 = [e]
        ∧ driverExit (runDriver (some cf) none pathArgs fs pc pb ex).1
            = ExitBehavior.exits 1)
    ∧ (∀ contents bcontents user e, fs cf = Except.ok contents →
        fs bf = Except.ok bcontents → pc contents = Except.ok user →
        pb bcontents = Except.error e →
        (runDriver (some cf) (some bf) pathArgs fs pc pb ex).1
          = DriverResult.caughtExit1 (ErrKind.parse e)
        ∧ driverExit (runDriver (some cf) (some bf) pathArgs fs pc pb ex).1
            = ExitBehavior.exits 1)
    ∧ (∀ contents user e, fs cf = Except.ok contents → pc contents = Except.ok user →
        ex (assembleExecConfig user none pathArgs.head?) = Except.error e →
        (runDriver (some cf) none pathArgs fs pc pb ex).1
          = DriverResult.caughtExit1 (ErrKind.exec e)
        ∧ printedOutput (runDriver (some cf) none pathArgs fs pc pb ex).1 = [e]
        ∧ driverExit (runDriver (some cf) none pathArgs fs pc pb ex).1
            = ExitBehavior.exits 1) := by
  refine ⟨?_, ?_, ?_, ?_, ?_⟩
  · intro e he
    cases bundleFilename with
    | none => simp [runDriver, he, driverExit]
    | some b2 => simp [runDriver, he, driverExit]
  · intro contents e hc he
    simp [runDriver, hc, he]
  · intro contents e hc hp
    simp [runDriver, hc, tryBlock, hp, printedOutput, errMessage, driverExit]
  · intro contents bcontents user e hc hb hp hpb
    simp [runDriver, hc, hb, tryBlock, hp, hpb, driverExit]
  · intro contents user e hc hp hex
    simp [runDriver, hc, tryBlock, hp, hex, printedOutput, errMessage, driverExit]

/-- Witness for C1 at a run whose config file holds malformed JSON. -/
theorem driver_error_propagation_amended_witness :
    (runDriver (some "cfg.json") none []
        (fun _ => Except.ok "not json")
        (fun _ => Except.error "Unexpected token")
        (fun _ => Except.error "unused")
        (fun _ => Except.ok ())).1
      = DriverResult.caughtExit1 (ErrKind.parse "Unexpected token")
    ∧ driverExit (runDriver (some "cfg.json") none []
        (fun _ => Except.ok "not json")
        (fun _ => Except.error "Unexpected token")
        (fun _ => Except.error "unused")
        (fun _ => Except.ok ())).1
      = ExitBehavior.exits 1 := by
  have h := (driver_error_propagation_amended "cfg.json" "bundle.json" none []
      (fun _ => Except.ok "not json")
      (fun _ => Except.error "Unexpected token")
      (fun _ => Except.error "unused")
      (fun _ => Except.ok ())).2.2.1 "not json" "Unexpected token" rfl rfl
  exact ⟨h.1, h.2.2⟩
